import Mathlib

/-!
Shallow embedding of the herald agent-check daemon: the rule-evaluation
engine (src/herald/rules.py) and the plugin scheduling/response engine
(src/herald/baseplugin.py).

Modelling conventions:
* Python floats are modelled by exact rationals; every concrete value the
  theorems evaluate is exactly representable, so the rational and the IEEE
  computation agree there.
* Python exceptions are modelled by `Except PyErr`; an exception class is
  one `PyErr` constructor.
* The regular-expression engine behind `re.match` and the restricted metric
  expression evaluator are boundary collaborators; they enter as explicit
  function parameters.
-/

deriving instance DecidableEq for Except

/-- Python exception kinds raised by the embedded code. -/
inductive PyErr where
  | zeroDiv   -- ZeroDivisionError from the percentage computation
  | valueErr  -- ValueError from float(value)
  | parseErr  -- Exception raised by HeraldThresholds.__init__ rule parsing
  | metricErr -- exception raised while evaluating a metric expression
  | runErr    -- exception raised by the data source run()
  deriving DecidableEq

/-- A metric value flowing out of a data source / metric expression. -/
inductive Value where
  | intV (n : ℤ)
  | strV (s : String)
  deriving DecidableEq

/-- Python str() on a metric value. -/
def pyStr : Value → String
  | .intV n => toString n
  | .strV s => s

/-- Decimal digits to a natural number. -/
def digitsToNat (cs : List Char) : ℕ :=
  cs.foldl (fun n c => 10 * n + (c.toNat - 48)) 0

/-- Python float() on a string, restricted to plain decimal literals
    (optional sign, integer digits, optional fractional digits); other
    strings raise ValueError, modelled as none.  Exponent forms and
    special values are outside the scope of every claim. -/
def pyFloatStr (s : String) : Option ℚ :=
  let cs := s.toList
  let signed : Bool × List Char :=
    match cs with
    | '-' :: tl => (true, tl)
    | '+' :: tl => (false, tl)
    | _ => (false, cs)
  let ip := signed.2.takeWhile Char.isDigit
  let rest := signed.2.drop ip.length
  if ip.isEmpty then none
  else
    let mag : Option ℚ :=
      match rest with
      | [] => some (digitsToNat ip : ℚ)
      | '.' :: fp =>
        if fp.all Char.isDigit then
          some ((digitsToNat ip : ℚ) + (digitsToNat fp : ℚ) / (10 : ℚ) ^ fp.length)
        else none
      | _ => none
    mag.map (fun v => if signed.1 then -v else v)

/-- Python float() on a metric value. -/
def pyFloat : Value → Option ℚ
  | .intV n => some (n : ℚ)
  | .strV s => pyFloatStr s

/-- Python int() on a number: truncation toward zero. -/
def pyTrunc (q : ℚ) : ℤ := if 0 ≤ q then ⌊q⌋ else ⌈q⌉

/-- The comparison operators a threshold rule can carry after
    HeraldThresholds.__init__ normalised them (rules.py 161-164):
    absent or '=' become ==, '!' becomes !=, '<' and '>' stay. -/
inductive POp where
  | opEq | opNe | opLt | opGt
  deriving DecidableEq

/-- Apply a comparison operator between the float metric value and the
    integer threshold, as the evaluated comparison at rules.py 214 does. -/
def evalOp (op : POp) (v : ℚ) (th : ℕ) : Bool :=
  match op with
  | .opEq => decide (v = (th : ℚ))
  | .opNe => decide (v ≠ (th : ℚ))
  | .opLt => decide (v < (th : ℚ))
  | .opGt => decide ((th : ℚ) < v)

/-- One entry of HeraldThresholds._parsed_rules (rules.py 141-174):
    (action, op, threshold) for a comparison rule, or
    ('pct', op, threshold, min_threshold_response) for the percentage rule
    (the op of a pct rule is stored but ignored at evaluation time). -/
inductive ParsedRule where
  | cmp (action : String) (op : POp) (threshold : ℕ)
  | pct (op : POp) (threshold : ℕ) (minResp : ℤ)
  deriving DecidableEq

/-- A configured threshold rule before parsing: either a one-entry dict
    {action: literal}, or a pct dict {pct: literal} optionally carrying
    min_threshold_response (absent means the default 1, rules.py 154). -/
inductive RawThresholdRule where
  | plain (action : String) (literal : String)
  | pctRule (literal : String) (minResp : Option ℤ)
  deriving DecidableEq

/-- The threshold literal carried by a raw rule, after Python str(). -/
def RawThresholdRule.literal : RawThresholdRule → String
  | .plain _ lit => lit
  | .pctRule lit _ => lit

/-- re.match of op_regex = '^([!<>=]?)([0-9]+)' against the literal
    (rules.py 114, 158-168), followed by the op normalisation and int(th).
    The match succeeds exactly when the string starts with an optional
    single op character followed by at least one digit; trailing characters
    are not examined.  int(th) on the matched digit run never fails. -/
def parseThresholdLiteral (s : String) : Option (POp × ℕ) :=
  let cs := s.toList
  let split : Option Char × List Char :=
    match cs with
    | c :: tl =>
      if c = '!' ∨ c = '<' ∨ c = '>' ∨ c = '=' then (some c, tl) else (none, cs)
    | [] => (none, cs)
  let ds := split.2.takeWhile Char.isDigit
  if ds.isEmpty then none
  else
    let op : POp :=
      match split.1 with
      | some '!' => POp.opNe
      | some '<' => POp.opLt
      | some '>' => POp.opGt
      | _ => POp.opEq
    some (op, digitsToNat ds)

/-- HeraldThresholds.__init__ parsing loop (rules.py 147-176): each rule is
    parsed in order; the first literal the op_regex does not match raises
    (AttributeError on m.groups(), re-raised as a config Exception). -/
def HeraldThresholds.init : List RawThresholdRule → Except PyErr (List ParsedRule)
  | [] => Except.ok []
  | r :: rest =>
    let pr : Except PyErr ParsedRule :=
      match r with
      | .plain action lit =>
        match parseThresholdLiteral lit with
        | none => Except.error PyErr.parseErr
        | some (op, th) => Except.ok (ParsedRule.cmp action op th)
      | .pctRule lit m =>
        match parseThresholdLiteral lit with
        | none => Except.error PyErr.parseErr
        | some (op, th) => Except.ok (ParsedRule.pct op th (m.getD 1))
    match pr, HeraldThresholds.init rest with
    | Except.error e, _ => Except.error e
    | Except.ok _, Except.error e => Except.error e
    | Except.ok p, Except.ok ps => Except.ok (p :: ps)

/-- HeraldThresholds.process_rules rule loop (rules.py 193-217), applied to
    the already float-converted value.  The percentage rule computes
    pct = int(100 - (value / threshold) * 100); division by a zero
    threshold raises ZeroDivisionError.  A comparison rule returns its
    action when satisfied, else the loop continues; an exhausted loop
    returns None (modelled: ok none). -/
def HeraldThresholds.processRules : List ParsedRule → ℚ → Except PyErr (Option String)
  | [], _ => Except.ok none
  | ParsedRule.pct _ th minResp :: _, v =>
    if th = 0 then Except.error PyErr.zeroDiv
    else
      let pct : ℤ := pyTrunc (100 - (v / (th : ℚ)) * 100)
      if pct ≤ 0 then Except.ok (some (toString minResp ++ "%"))
      else if 100 < pct then Except.ok (some "")
      else Except.ok (some (toString pct ++ "%"))
  | ParsedRule.cmp action op th :: rest, v =>
    if evalOp op v th then Except.ok (some action)
    else HeraldThresholds.processRules rest v

/-- HeraldThresholds.process_rules including the float(value) conversion at
    its entry (rules.py 187-191); conversion failure raises ValueError. -/
def HeraldThresholds.processValue (rules : List ParsedRule) (v : Value) :
    Except PyErr (Option String) :=
  match pyFloat v with
  | none => Except.error PyErr.valueErr
  | some q => HeraldThresholds.processRules rules q

/-- HeraldPatterns.process_rules (rules.py 84-98): each rule is a one-entry
    dict action → pattern; rules are scanned in order and the first whose
    pattern matches str(value) returns its action; otherwise None.
    `m pat s` is the regex boundary: whether re.match finds a match of
    `pat` anchored at the start of `s`. -/
def HeraldPatterns.processRules (m : String → String → Bool) :
    List (String × String) → Value → Option String
  | [], _ => none
  | (action, pat) :: rest, v =>
    if m pat (pyStr v) then some action else HeraldPatterns.processRules m rest v

/-- The plugin state slot self.state (baseplugin.py 116): the last written
    response value together with the instant it was written. -/
structure PluginState where
  value : String
  timestamp : ℚ
  deriving DecidableEq

/-- HeraldPlugin configuration after __init__ (baseplugin.py 113-152).
    hp / ht hold the configured rule set together with its metric
    expression, modelled as a function from the raw result to the metric
    value (it may raise); absent means that rule family is not
    configured. -/
structure HeraldPluginCfg where
  interval : ℤ
  staleness_interval : ℤ
  staleness_response : String
  default_response : String
  hp : Option (List (String × String) × (Value → Except PyErr Value))
  ht : Option (List ParsedRule × (Value → Except PyErr Value))

/-- The 'noop' normalisation __init__ applies to staleness_response and
    default_response (baseplugin.py 132-134, 150-152). -/
def normNoop (s : String) : String := if s = "noop" then "" else s

/-- HeraldPlugin.write_state (baseplugin.py 174-180): value and timestamp
    are replaced together. -/
def write_state (_st : PluginState) (v : String) (now : ℚ) : PluginState :=
  { value := v, timestamp := now }

/-- HeraldPlugin.is_stale (baseplugin.py 238-247): with a nonzero (truthy)
    staleness_interval the state is stale when more than that many seconds
    passed since the last write; otherwise never. -/
def is_stale (p : HeraldPluginCfg) (st : PluginState) (now : ℚ) : Bool :=
  if p.staleness_interval ≠ 0 then
    decide ((p.staleness_interval : ℚ) < now - st.timestamp)
  else false

/-- HeraldPlugin.process_rules (baseplugin.py 201-229): evaluate the
    pattern rules and then the threshold rules against the result, keep
    each outcome only when it is truthy (a non-empty string), and join with
    a single space.  An exception from either evaluation propagates. -/
def HeraldPlugin.processRules (m : String → String → Bool)
    (p : HeraldPluginCfg) (result : Value) : Except PyErr String :=
  let ptPart : Except PyErr (List String) :=
    match p.hp with
    | none => Except.ok []
    | some (rules, metricF) =>
      match metricF result with
      | Except.error e => Except.error e
      | Except.ok mv =>
        match HeraldPatterns.processRules m rules mv with
        | some a => Except.ok (if a = "" then [] else [a])
        | none => Except.ok []
  let htPart : Except PyErr (List String) :=
    match p.ht with
    | none => Except.ok []
    | some (rules, metricF) =>
      match metricF result with
      | Except.error e => Except.error e
      | Except.ok mv =>
        match HeraldThresholds.processValue rules mv with
        | Except.error e => Except.error e
        | Except.ok (some a) => Except.ok (if a = "" then [] else [a])
        | Except.ok none => Except.ok []
  match ptPart, htPart with
  | Except.error e, _ => Except.error e
  | Except.ok _, Except.error e => Except.error e
  | Except.ok l1, Except.ok l2 => Except.ok (String.intercalate " " (l1 ++ l2))

/-- One iteration of the HeraldPlugin.run_with_interval loop body
    (baseplugin.py 187-199).  c.1 is what run() produced during the cycle
    (none = it raised) and c.2 the wall-clock instant of the write.  A
    truthy (non-empty) processed state is written; an empty one is replaced
    by default_response; any exception is caught, leaving the previous
    state (value and timestamp) unchanged. -/
def runCycle (m : String → String → Bool) (p : HeraldPluginCfg)
    (st : PluginState) (c : Option Value × ℚ) : PluginState :=
  match c.1 with
  | none => st
  | some result =>
    match HeraldPlugin.processRules m p result with
    | Except.error _ => st
    | Except.ok s =>
      if s = "" then write_state st p.default_response c.2
      else write_state st s c.2

/-- HeraldPlugin.run_with_interval (baseplugin.py 182-199) over a finite
    schedule of sampling cycles: the loop body is applied once per cycle,
    sleeping interval seconds in between. -/
def run_with_interval (m : String → String → Bool) (p : HeraldPluginCfg)
    (st : PluginState) (cs : List (Option Value × ℚ)) : PluginState :=
  cs.foldl (runCycle m p) st

/-- HeraldPlugin.respond (baseplugin.py 249-275).  In synchronous mode
    (interval == 0) run() is invoked inline and runRes is its outcome
    (none = it raised); the source binds the returned value to no name, so
    only a raised exception can influence the response.  Then the staleness
    check picks either the staleness response or the cached state value. -/
def respond (p : HeraldPluginCfg) (st : PluginState)
    (runRes : Option Value) (now : ℚ) : Except PyErr String :=
  if p.interval = 0 ∧ runRes = none then Except.error PyErr.runErr
  else
    Except.ok
      (if is_stale p st now then
        (if p.staleness_response ≠ "" ∧ p.staleness_response ≠ "noop" then
          p.staleness_response
        else "")
      else st.value)

/-- The parsed form of the config thresholds [{up: '<7000'}, {drain: '>7000'}]. -/
def upDrainRules : List ParsedRule :=
  [ParsedRule.cmp "up" POp.opLt 7000, ParsedRule.cmp "drain" POp.opGt 7000]

/-- The synchronous plugin of the end-to-end scenario behind C1:
    thresholds [{up: '<7000'}, {drain: '>7000'}], interval 0, defaults
    everywhere else, default thresholds_metric 'r' (identity). -/
def c1cfg : HeraldPluginCfg :=
  { interval := 0, staleness_interval := 0, staleness_response := "",
    default_response := "", hp := none,
    ht := some (upDrainRules, fun v => Except.ok v) }

/-- C1: the spec says a synchronous (interval == 0) respond() performs the
    full sampling cycle inline — run the data source, evaluate the rules,
    write State — so the C1 config answers "up" when the source returns
    5000 and "drain" when it returns 8000.  The code instead calls run()
    and discards its result: respond() answers the initial cached state ""
    in both cases, although the threshold rules evaluate to "up" / "drain"
    on those very values. -/
theorem c1_sync_respond_discards_run_result (t0 now : ℚ) :
    HeraldThresholds.init [RawThresholdRule.plain "up" "<7000",
        RawThresholdRule.plain "drain" ">7000"] = Except.ok upDrainRules
    ∧ respond c1cfg { value := "", timestamp := t0 } (some (Value.intV 5000)) now
        = Except.ok ""
    ∧ respond c1cfg { value := "", timestamp := t0 } (some (Value.intV 8000)) now
        = Except.ok ""
    ∧ HeraldThresholds.processRules upDrainRules 5000 = Except.ok (some "up")
    ∧ HeraldThresholds.processRules upDrainRules 8000 = Except.ok (some "drain")
    ∧ ("" : String) ≠ "up" ∧ ("" : String) ≠ "drain" := by
  refine ⟨by decide, ?_, ?_, ?_, ?_, by decide, by decide⟩
  · simp [respond, is_stale, c1cfg]
  · simp [respond, is_stale, c1cfg]
  · norm_num [HeraldThresholds.processRules, upDrainRules, evalOp]
  · norm_num [HeraldThresholds.processRules, upDrainRules, evalOp]

/-- The plugin behind C2: a single percentage rule with threshold 7000 and
    a non-empty default_response 'up'. -/
def c2cfg : HeraldPluginCfg :=
  { interval := 10, staleness_interval := 0, staleness_response := "",
    default_response := "up", hp := none,
    ht := some ([ParsedRule.pct POp.opEq 7000 1], fun v => Except.ok v) }

/-- C2: the spec says a pct > 100 percentage result is the explicit no-op
    "" and, being the rule's result, is not replaced by default_response.
    In the code the threshold processor does return "" (here: value -700,
    pct = 110), but HeraldPlugin.process_rules drops the falsy "" and the
    sampling cycle then writes default_response, so with default_response
    'up' the State receives "up", not the no-op "". -/
theorem c2_pct_noop_replaced_by_default (st : PluginState) (t : ℚ) :
    HeraldThresholds.processRules [ParsedRule.pct POp.opEq 7000 1] (-700)
      = Except.ok (some "")
    ∧ runCycle (fun _ _ => false) c2cfg st (some (Value.intV (-700)), t)
      = { value := "up", timestamp := t }
    ∧ ("up" : String) ≠ "" := by
  have hpv : HeraldThresholds.processValue [ParsedRule.pct POp.opEq 7000 1]
      (Value.intV (-700)) = Except.ok (some "") := by
    norm_num [HeraldThresholds.processValue, pyFloat, HeraldThresholds.processRules,
      pyTrunc]
  refine ⟨?_, ?_, by decide⟩
  · norm_num [HeraldThresholds.processRules, pyTrunc]
  · simp [runCycle, HeraldPlugin.processRules, c2cfg, hpv, write_state,
      String.intercalate]

/-- C3 counterexample: the literal '7000.5' does not parse as an integer
    after stripping an optional op character, yet construction does not
    raise — the op_regex is not end-anchored, so the digit run '7000' is
    extracted and the trailing '.5' silently dropped. -/
theorem c3_counterexample :
    HeraldThresholds.init [RawThresholdRule.plain "up" "7000.5"]
      = Except.ok [ParsedRule.cmp "up" POp.opEq 7000]
    ∧ HeraldThresholds.init [RawThresholdRule.plain "up" "7000.5"]
      ≠ Except.error PyErr.parseErr := by decide

/-- C3 (amended): construction raises exactly for a threshold literal that
    does not begin with an optional single '!', '<', '>' or '=' followed by
    at least one digit ('abc', '<x' raise); a literal with a valid digit
    prefix and trailing characters ('7000.5', '7000abc') is accepted with
    the trailing text silently discarded, the threshold taken from the
    digit prefix.  In general, construction succeeds iff every rule's
    literal has such a digit prefix. -/
theorem c3_amended_construction_errors :
    HeraldThresholds.init [RawThresholdRule.plain "up" "abc"]
      = Except.error PyErr.parseErr
    ∧ HeraldThresholds.init [RawThresholdRule.plain "up" "<x"]
      = Except.error PyErr.parseErr
    ∧ HeraldThresholds.init [RawThresholdRule.plain "up" "7000.5"]
      = Except.ok [ParsedRule.cmp "up" POp.opEq 7000]
    ∧ HeraldThresholds.init [RawThresholdRule.plain "up" "7000abc"]
      = Except.ok [ParsedRule.cmp "up" POp.opEq 7000]
    ∧ ∀ rules : List RawThresholdRule,
        (∃ prs, HeraldThresholds.init rules = Except.ok prs)
          ↔ ∀ r ∈ rules, (parseThresholdLiteral r.literal).isSome := by
  refine ⟨by decide, by decide, by decide, by decide, ?_⟩
  intro rules
  induction rules with
  | nil => simp [HeraldThresholds.init]
  | cons r rest ih =>
    cases r with
    | plain a lit =>
      cases hp : parseThresholdLiteral lit with
      | none =>
        simp [HeraldThresholds.init, hp, RawThresholdRule.literal]
      | some pr =>
        obtain ⟨op, th⟩ := pr
        cases hrest : HeraldThresholds.init rest with
        | error e =>
          simp only [HeraldThresholds.init, hp, hrest, RawThresholdRule.literal]
          constructor
          · rintro ⟨prs, hok⟩
            exact absurd hok (by simp)
          · intro hall
            have hres := ih.mpr (fun x hx => hall x (List.mem_cons_of_mem _ hx))
            obtain ⟨ps, hps⟩ := hres
            exact absurd (hrest ▸ hps) (by simp)
        | ok ps =>
          simp only [HeraldThresholds.init, hp, hrest, RawThresholdRule.literal]
          constructor
          · rintro -
            intro x hx
            rcases List.mem_cons.mp hx with hx1 | hx2
            · subst hx1
              simp [RawThresholdRule.literal, hp]
            · exact ih.mp ⟨ps, hrest⟩ x hx2
          · intro hall
            exact ⟨_, rfl⟩
    | pctRule lit mr =>
      cases hp : parseThresholdLiteral lit with
      | none =>
        simp [HeraldThresholds.init, hp, RawThresholdRule.literal]
      | some pr =>
        obtain ⟨op, th⟩ := pr
        cases hrest : HeraldThresholds.init rest with
        | error e =>
          simp only [HeraldThresholds.init, hp, hrest, RawThresholdRule.literal]
          constructor
          · rintro ⟨prs, hok⟩
            exact absurd hok (by simp)
          · intro hall
            have hres := ih.mpr (fun x hx => hall x (List.mem_cons_of_mem _ hx))
            obtain ⟨ps, hps⟩ := hres
            exact absurd (hrest ▸ hps) (by simp)
        | ok ps =>
          simp only [HeraldThresholds.init, hp, hrest, RawThresholdRule.literal]
          constructor
          · rintro -
            intro x hx
            rcases List.mem_cons.mp hx with hx1 | hx2
            · subst hx1
              simp [RawThresholdRule.literal, hp]
            · exact ih.mp ⟨ps, hrest⟩ x hx2
          · intro hall
            exact ⟨_, rfl⟩

/-- C4: percentage rule numerics with threshold 7000 and the default
    min_threshold_response of 1: pct = int(100 - (value/threshold)*100)
    with truncating semantics; value 7000 gives pct 0 (<= 0, so '1%'),
    value 3500 gives '50%', value -700 gives pct 110 (> 100, so ''). -/
theorem c4_pct_values :
    HeraldThresholds.init [RawThresholdRule.pctRule "7000" none]
      = Except.ok [ParsedRule.pct POp.opEq 7000 1]
    ∧ HeraldThresholds.processRules [ParsedRule.pct POp.opEq 7000 1] 7000
      = Except.ok (some "1%")
    ∧ HeraldThresholds.processRules [ParsedRule.pct POp.opEq 7000 1] 3500
      = Except.ok (some "50%")
    ∧ HeraldThresholds.processRules [ParsedRule.pct POp.opEq 7000 1] (-700)
      = Except.ok (some "")
    ∧ pyTrunc (100 - ((7000 : ℚ) / 7000) * 100) = 0
    ∧ pyTrunc (100 - ((3500 : ℚ) / 7000) * 100) = 50
    ∧ pyTrunc (100 - ((-700 : ℚ) / 7000) * 100) = 110 := by
  refine ⟨by decide, ?_, ?_, ?_, ?_, ?_, ?_⟩
  · norm_num [HeraldThresholds.processRules, pyTrunc]
    rfl
  · norm_num [HeraldThresholds.processRules, pyTrunc]
    rfl
  · norm_num [HeraldThresholds.processRules, pyTrunc]
  · norm_num [pyTrunc]
  · norm_num [pyTrunc]
  · norm_num [pyTrunc]

/-- A sampling cycle is faulty when the data source run() raised (c.1 is
    none) or when rule processing raised on its result. -/
def cycleFaulty (m : String → String → Bool) (p : HeraldPluginCfg)
    (c : Option Value × ℚ) : Prop :=
  c.1 = none ∨ ∃ r e, c.1 = some r ∧ HeraldPlugin.processRules m p r = Except.error e

/-- C5: a fault during a background sampling cycle (run() raising, or rule
    evaluation raising) is contained: that cycle's state write is skipped,
    the previous state (value and timestamp) is retained unchanged, and the
    loop proceeds to the remaining cycles as if the faulty cycle had not
    happened. -/
theorem c5_cycle_fault_retains_state (m : String → String → Bool)
    (p : HeraldPluginCfg) (st : PluginState) (c : Option Value × ℚ)
    (cs : List (Option Value × ℚ)) (h : cycleFaulty m p c) :
    runCycle m p st c = st
    ∧ run_with_interval m p st (c :: cs) = run_with_interval m p st cs := by
  have h1 : runCycle m p st c = st := by
    rcases h with h | ⟨r, e, hc, hpr⟩
    · simp [runCycle, h]
    · simp [runCycle, hc, hpr]
  exact ⟨h1, by simp [run_with_interval, h1]⟩

/-- A plugin whose single threshold rule is a percentage rule with a zero
    threshold; every one of its sampling cycles faults. -/
def pctZeroCfg : HeraldPluginCfg :=
  { interval := 10, staleness_interval := 0, staleness_response := "",
    default_response := "", hp := none,
    ht := some ([ParsedRule.pct POp.opEq 0 1], fun v => Except.ok v) }

/-- C5 witness: a concrete faulty cycle (zero-threshold percentage rule
    raising ZeroDivisionError) retains the previous state. -/
theorem c5_witness :
    runCycle (fun _ _ => false) pctZeroCfg { value := "x", timestamp := 3 }
        (some (Value.intV 5), 9)
      = { value := "x", timestamp := 3 }
    ∧ run_with_interval (fun _ _ => false) pctZeroCfg
        { value := "x", timestamp := 3 } [(some (Value.intV 5), 9)]
      = { value := "x", timestamp := 3 } := by
  have h := c5_cycle_fault_retains_state (fun _ _ => false) pctZeroCfg
    { value := "x", timestamp := 3 } (some (Value.intV 5), 9) []
    (Or.inr ⟨Value.intV 5, PyErr.zeroDiv, rfl, rfl⟩)
  exact ⟨h.1, h.2⟩

/-- The plugin behind C6: non-synchronous (interval 5), staleness_interval
    30, staleness_response as configured after the 'noop' normalisation of
    __init__. -/
def c6cfg (sr : String) : HeraldPluginCfg :=
  { interval := 5, staleness_interval := 30, staleness_response := normNoop sr,
    default_response := "", hp := none,
    ht := some ([ParsedRule.cmp "up" POp.opLt 7000], fun v => Except.ok v) }

/-- C6: with staleness_interval 30, a non-synchronous respond() 31 seconds
    after the last state write returns the (normalised) staleness_response
    — which is the empty string when that response is empty — while 29
    seconds after the write it returns the cached value unchanged; with
    staleness_interval 0 the staleness check is disabled and the cached
    value is always returned. -/
theorem c6_staleness (sr v : String) (ts : ℚ) (runRes : Option Value) :
    respond (c6cfg sr) { value := v, timestamp := ts } runRes (ts + 31)
      = Except.ok (normNoop sr)
    ∧ respond (c6cfg sr) { value := v, timestamp := ts } runRes (ts + 29)
      = Except.ok v
    ∧ ∀ now, respond { c6cfg sr with staleness_interval := 0 }
        { value := v, timestamp := ts } runRes now = Except.ok v := by
  have hstale1 : is_stale (c6cfg sr) { value := v, timestamp := ts } (ts + 31)
      = true := by
    simp only [is_stale, c6cfg]
    norm_num
  have hstale2 : is_stale (c6cfg sr) { value := v, timestamp := ts } (ts + 29)
      = false := by
    simp only [is_stale, c6cfg]
    norm_num
  refine ⟨?_, ?_, ?_⟩
  · simp only [respond, hstale1]
    simp only [c6cfg]
    norm_num
    by_cases hsr : sr = "noop"
    · simp [normNoop, hsr]
    · by_cases hse : sr = "" <;> simp [normNoop, hsr, hse]
  · simp only [respond, hstale2]
    simp [c6cfg]
  · intro now
    simp [respond, is_stale, c6cfg]

/-- A plugin configured with only pattern rules and the default
    patterns_metric 'r' (identity). -/
def patternsOnlyCfg (rules : List (String × String)) (dflt : String) :
    HeraldPluginCfg :=
  { interval := 5, staleness_interval := 0, staleness_response := "",
    default_response := dflt, hp := some (rules, fun v => Except.ok v),
    ht := none }

/-- C7: pattern evaluation tests each rule's pattern against the
    stringified metric value in configured order (the match predicate is
    the start-anchored re.match boundary) and yields the first matching
    rule's action — the find? characterisation; when no pattern matches the
    result is the None sentinel, distinct from every action token, and the
    sampling cycle of a patterns-only plugin then writes default_response
    to the state. -/
theorem c7_patterns_first_match :
    (∀ (m : String → String → Bool) (rules : List (String × String)) (v : Value),
      HeraldPatterns.processRules m rules v
        = (rules.find? (fun r => m r.2 (pyStr v))).map (fun r => r.1))
    ∧ (∀ (m : String → String → Bool) (rules : List (String × String))
        (dflt : String) (st : PluginState) (res : Value) (t : ℚ),
        HeraldPatterns.processRules m rules res = none →
        runCycle m (patternsOnlyCfg rules dflt) st (some res, t)
          = write_state st dflt t) := by
  constructor
  · intro m rules v
    induction rules with
    | nil => simp [HeraldPatterns.processRules]
    | cons r rest ih =>
      obtain ⟨action, pat⟩ := r
      cases hm : m pat (pyStr v) <;>
        simp [HeraldPatterns.processRules, List.find?, hm, ih]
  · intro m rules dflt st res t hnone
    simp [runCycle, HeraldPlugin.processRules, patternsOnlyCfg, hnone,
      write_state, String.intercalate]

/-- C7 witness: a patterns-only plugin with a never-matching predicate
    writes default_response during the cycle. -/
theorem c7_witness :
    runCycle (fun _ _ => false) (patternsOnlyCfg [("ready", "x")] "dflt")
        { value := "", timestamp := 0 } (some (Value.strV "s"), 4)
      = write_state { value := "", timestamp := 0 } "dflt" 4 :=
  c7_patterns_first_match.2 (fun _ _ => false) [("ready", "x")] "dflt"
    { value := "", timestamp := 0 } (Value.strV "s") 4 rfl

/-- A comparison-only threshold rule set, given as (action, op, threshold)
    triples. -/
def cmpRules (rs : List (String × POp × ℕ)) : List ParsedRule :=
  rs.map (fun r => ParsedRule.cmp r.1 r.2.1 r.2.2)

/-- C8: on a rule set of comparison rules, process_rules applies each
    rule's operator between the numeric value and that rule's threshold in
    configured order and returns the first satisfied rule's action — the
    find? characterisation, so rules satisfied later cannot affect the
    result; when no rule is satisfied the result is the None sentinel. -/
theorem c8_cmp_first_satisfied (rs : List (String × POp × ℕ)) (v : ℚ) :
    HeraldThresholds.processRules (cmpRules rs) v
      = Except.ok ((rs.find? (fun r => evalOp r.2.1 v r.2.2)).map (fun r => r.1)) := by
  induction rs with
  | nil => simp [cmpRules, HeraldThresholds.processRules]
  | cons r rest ih =>
    obtain ⟨a, op, th⟩ := r
    simp only [cmpRules] at ih ⊢
    cases hm : evalOp op v th <;>
      simp [HeraldThresholds.processRules, List.find?, hm, ih]

/-- C9: a percentage rule with threshold literal '0' is accepted at
    construction (the literal parses to the integer 0), but evaluation then
    raises ZeroDivisionError for every numeric value whenever the pct rule
    is the first applicable rule (every comparison rule before it
    unsatisfied), so such a rule set can never produce a response token. -/
theorem c9_pct_zero_threshold (op : POp) (minResp : ℤ) (v : ℚ)
    (pre : List (String × POp × ℕ)) (rest : List ParsedRule)
    (hpre : ∀ r ∈ pre, evalOp r.2.1 v r.2.2 = false) :
    HeraldThresholds.init [RawThresholdRule.pctRule "0" none]
      = Except.ok [ParsedRule.pct POp.opEq 0 1]
    ∧ HeraldThresholds.processRules
        (cmpRules pre ++ ParsedRule.pct op 0 minResp :: rest) v
      = Except.error PyErr.zeroDiv := by
  refine ⟨by decide, ?_⟩
  revert hpre
  induction pre with
  | nil =>
    intro _
    simp [cmpRules, HeraldThresholds.processRules]
  | cons r pre ih =>
    intro hpre
    obtain ⟨a, o, th⟩ := r
    have hr : evalOp o v th = false := hpre (a, o, th) (List.mem_cons_self _ _)
    have hih := ih (fun x hx => hpre x (List.mem_cons_of_mem _ hx))
    simp only [cmpRules] at hih ⊢
    simp [HeraldThresholds.processRules, hr, hih]

/-- C9 witness: an unsatisfied comparison rule followed by the
    zero-threshold percentage rule raises at the concrete value 5. -/
theorem c9_witness :
    HeraldThresholds.init [RawThresholdRule.pctRule "0" none]
      = Except.ok [ParsedRule.pct POp.opEq 0 1]
    ∧ HeraldThresholds.processRules
        (cmpRules [("up", POp.opLt, 3)] ++ ParsedRule.pct POp.opEq 0 1 :: []) 5
      = Except.error PyErr.zeroDiv :=
  c9_pct_zero_threshold POp.opEq 1 5 [("up", POp.opLt, 3)] []
    (by
      intro r hr
      simp only [List.mem_singleton] at hr
      subst hr
      simp [evalOp]
      norm_num)

/-- C10 counterexample: with a zero-threshold percentage rule first in the
    set, the numeric value 5000 yields no result token at all — evaluation
    raises ZeroDivisionError — refuting "always produces a result". -/
theorem c10_counterexample :
    HeraldThresholds.processRules
        [ParsedRule.pct POp.opEq 0 1, ParsedRule.cmp "up" POp.opLt 7000] 5000
      = Except.error PyErr.zeroDiv
    ∧ ¬ ∃ s, HeraldThresholds.processRules
        [ParsedRule.pct POp.opEq 0 1, ParsedRule.cmp "up" POp.opLt 7000] 5000
        = Except.ok (some s) := by
  have h : HeraldThresholds.processRules
      [ParsedRule.pct POp.opEq 0 1, ParsedRule.cmp "up" POp.opLt 7000] (5000 : ℚ)
      = Except.error PyErr.zeroDiv := by
    simp [HeraldThresholds.processRules]
  exact ⟨h, by simp [h]⟩

/-- C10 (amended): a percentage rule always terminates the scan — rules
    configured after it are never evaluated and cannot affect the result —
    and with a nonzero threshold it always produces a result, one of
    '<minResponse>%', '' or '<pct>%'; with threshold 0 it raises
    ZeroDivisionError instead of producing any result. -/
theorem c10_pct_terminates_scan (op : POp) (th : ℕ) (minResp : ℤ)
    (rest rest2 : List ParsedRule) (v : ℚ) :
    HeraldThresholds.processRules (ParsedRule.pct op th minResp :: rest) v
      = HeraldThresholds.processRules (ParsedRule.pct op th minResp :: rest2) v
    ∧ (th = 0 → HeraldThresholds.processRules (ParsedRule.pct op th minResp :: rest) v
        = Except.error PyErr.zeroDiv)
    ∧ (th ≠ 0 → ∃ s, HeraldThresholds.processRules
          (ParsedRule.pct op th minResp :: rest) v = Except.ok (some s)
        ∧ (s = toString minResp ++ "%" ∨ s = ""
          ∨ s = toString (pyTrunc (100 - (v / (th : ℚ)) * 100)) ++ "%")) := by
  refine ⟨rfl, ?_, ?_⟩
  · intro h0
    subst h0
    simp [HeraldThresholds.processRules]
  · intro hth
    by_cases h1 : pyTrunc (100 - (v / (th : ℚ)) * 100) ≤ 0
    · exact ⟨_, by simp [HeraldThresholds.processRules, hth, h1], Or.inl rfl⟩
    · by_cases h2 : 100 < pyTrunc (100 - (v / (th : ℚ)) * 100)
      · exact ⟨"", by simp [HeraldThresholds.processRules, hth, h1, h2],
          Or.inr (Or.inl rfl)⟩
      · exact ⟨_, by simp [HeraldThresholds.processRules, hth, h1, h2],
          Or.inr (Or.inr rfl)⟩

/-- C10 witness: with the nonzero threshold 7000 and value 3500 the
    percentage rule produces a result of one of the three forms, with a
    further comparison rule after it not evaluated. -/
theorem c10_witness :
    ∃ s, HeraldThresholds.processRules
        [ParsedRule.pct POp.opEq 7000 1, ParsedRule.cmp "x" POp.opLt 1] 3500
      = Except.ok (some s)
    ∧ (s = toString (1 : ℤ) ++ "%" ∨ s = ""
      ∨ s = toString (pyTrunc (100 - ((3500 : ℚ) / ((7000 : ℕ) : ℚ)) * 100)) ++ "%") :=
  (c10_pct_terminates_scan POp.opEq 7000 1 [ParsedRule.cmp "x" POp.opLt 1] [] 3500).2.2
    (by norm_num)
